import Mathlib

/-!
Verification of `src/generative/gans/wasserstein.py` (Wasserstein GAN
discriminator-training mixin).

Shallow embedding conventions:
* tensors of floats are modelled over `ℚ` (exact arithmetic stand-in);
  a single sample (one (H, W, C) image) is `Sample := List (List (List ℚ))`,
  a batch is `List Sample`, a flat weight tensor is `List ℚ`;
* the opaque differentiable collaborators (generator network, critic network,
  the external Wasserstein loss object, the autodiff engine, the optimizer and
  the random sources) are oracle functions collected in `TrainEnv`;
* Python `None` becomes `Option.none`; a mutating method becomes a function
  returning the updated state; a method returning `None` returns only the
  state.
-/

/-- One sample: an (H, W, C) image as nested lists of rationals. -/
abbrev Sample := List (List (List ℚ))

/-- Elementwise scaling of a sample by a scalar (tensor broadcast `e * x`). -/
def sampleScale (a : ℚ) (s : Sample) : Sample :=
  s.map (List.map (List.map (fun x => a * x)))

/-- Elementwise addition of two samples of the same shape. -/
def sampleAdd (s t : Sample) : Sample :=
  List.zipWith (List.zipWith (List.zipWith (fun x y => x + y))) s t

/-- Sum of squares of all entries of one sample:
`tf.reduce_sum(tf.square(g), axis=[1, 2, 3])` evaluated at one batch index. -/
def sumSq (s : Sample) : ℚ :=
  (s.map (fun p => (p.map (fun r => (r.map (fun x => x ^ 2)).sum)).sum)).sum

/-- Embeds `tf.reduce_mean` over a flat list of scalars. -/
def mean (xs : List ℚ) : ℚ :=
  xs.sum / xs.length

/-- Three-list pointwise zip, used for the per-sample interpolation. -/
def zipWith3 (f : ℚ → Sample → Sample → Sample) :
    List ℚ → List Sample → List Sample → List Sample
  | a :: as, b :: bs, c :: cs => f a b c :: zipWith3 f as bs cs
  | _, _, _ => []

/-- Embeds `WassersteinTypes.CLIP_WEIGHTS` (a `str` enum member: its value). -/
def WassersteinTypes.CLIP_WEIGHTS : String := "clip_weights"

/-- Embeds `WassersteinTypes.GRADIENT_PENALTY` (a `str` enum member: its value). -/
def WassersteinTypes.GRADIENT_PENALTY : String := "gradient_penalty"

/-- Modelled from the spec: the `LossTypes` enum lives in
`generative/common/losses.py`, which is not under `src/`; the spec gives its
members as `{STANDARD, WASSERSTEIN, …}`.  Only equality with `WASSERSTEIN`
is ever tested by the code under verification. -/
inductive LossTypes where
  | STANDARD : LossTypes
  | WASSERSTEIN : LossTypes
deriving DecidableEq

/-- Embeds `WeightClipConstraint` (`wasserstein.py` lines 54-73): holds the clip
value passed at construction. -/
structure WeightClipConstraint where
  clipValue : ℚ
deriving DecidableEq

/-- Embeds `tf.clip_by_value(t, lo, hi)`: elementwise `max (min x hi) lo`. -/
def clipByValue (w : List ℚ) (lo hi : ℚ) : List ℚ :=
  w.map (fun x => max (min x hi) lo)

/-- Embeds `WeightClipConstraint.__call__` (lines 69-70):
`tf.clip_by_value(weights, -clip_value, clip_value)`.  Pure: same-shaped
result, no state touched, total on (finite) rational inputs. -/
def WeightClipConstraint.call (c : WeightClipConstraint) (weights : List ℚ) :
    List ℚ :=
  clipByValue weights (-c.clipValue) c.clipValue

/-- Embeds `WeightClipConstraint.get_config` (lines 72-73). -/
def WeightClipConstraint.getConfig (c : WeightClipConstraint) : ℚ :=
  c.clipValue

/-- The `DictConfig` fields read by this module.  A field the running code
may find missing (raising at attribute access) is an `Option`. -/
structure DictConfig where
  loss : LossTypes
  wassersteinType : Option String
  nCritic : Option Nat
  clipValue : Option ℚ
  gradientPenalty : Option ℚ
  driftTerm : Option ℚ
deriving DecidableEq

/-- The state the `WassersteinMixin.__init__` body (lines 100-115) leaves on
the instance: `_n_critic`, `_gradient_penalty_coeff`, `_drift_term_coeff`
(assigned only in gradient-penalty mode; never read otherwise, so kept at 0
elsewhere) and the constraint handed to `build_discriminator` in clip mode
(`none` when no constraint was attached). -/
structure WassersteinFields where
  nCritic : Nat
  gradientPenaltyCoeff : Option ℚ
  driftTermCoeff : ℚ
  constraint : Option WeightClipConstraint
deriving DecidableEq

/-- Embeds `WassersteinMixin.__init__` (lines 100-115).  Reads `cfg.n_critic` and
`cfg.wasserstein_type` (raising if missing), then branches on the type:
clip mode builds a `WeightClipConstraint` from `cfg.clip_value` and rebuilds
the discriminator with it; gradient-penalty mode stores
`cfg.get("drift_term", 0.0)` and `cfg.gradient_penalty`; any other value
falls through both branches, leaving no constraint and a `None` coefficient.
No validation beyond the attribute accesses is performed. -/
def initWasserstein (cfg : DictConfig) : Except String WassersteinFields :=
  match cfg.nCritic with
  | none => .error "missing attribute n_critic"
  | some n =>
    match cfg.wassersteinType with
    | none => .error "missing attribute wasserstein_type"
    | some wt =>
      if wt = WassersteinTypes.CLIP_WEIGHTS then
        match cfg.clipValue with
        | none => .error "missing attribute clip_value"
        | some cv =>
          .ok { nCritic := n, gradientPenaltyCoeff := none,
                driftTermCoeff := 0, constraint := some ⟨cv⟩ }
      else if wt = WassersteinTypes.GRADIENT_PENALTY then
        match cfg.gradientPenalty with
        | none => .error "missing attribute gradient_penalty"
        | some gp =>
          .ok { nCritic := n, gradientPenaltyCoeff := some gp,
                driftTermCoeff := cfg.driftTerm.getD 0, constraint := none }
      else
        .ok { nCritic := n, gradientPenaltyCoeff := none,
              driftTermCoeff := 0, constraint := none }

/-- Property `WassersteinMixin.n_critic` (lines 211-213). -/
def WassersteinFields.n_critic (f : WassersteinFields) : Nat :=
  f.nCritic

/-- Property `WassersteinMixin.gradient_penalty` (lines 215-217). -/
def WassersteinFields.gradient_penalty (f : WassersteinFields) : Option ℚ :=
  f.gradientPenaltyCoeff

/-- The per-instance configuration `discriminator_step` consults:
the mixin fields together with the base-class fields `_mb_size` and
`_latent_dim`. -/
structure ModelCfg where
  nCritic : Nat
  mbSize : Nat
  latentDim : Nat
  gradientPenaltyCoeff : Option ℚ
  driftTermCoeff : ℚ
  constraint : Option WeightClipConstraint

/-- Builds the step configuration from the `__init__` result and the
base-class minibatch / latent sizes. -/
def mkModelCfg (f : WassersteinFields) (mb latentDim : Nat) : ModelCfg :=
  { nCritic := f.nCritic, mbSize := mb, latentDim := latentDim,
    gradientPenaltyCoeff := f.gradientPenaltyCoeff,
    driftTermCoeff := f.driftTermCoeff, constraint := f.constraint }

/-- The opaque collaborators of the training step, as oracle functions:
`noise idx k` is the `tf.random.normal((k, latent_dim))` draw of
sub-iteration `idx`; `generator gParams z` applies `self.generator` (with its
current parameters) to one latent vector; `discriminator dParams x` scores
one sample; `wLoss` is the external `self._loss(real=…, fake=…)` object;
`gradD dParams x` is the autodiff oracle for `tape.gradient(D_hat, x_hat)`
at one batch index; `epsilon k` is the `tf.random.uniform([k, 1, 1, 1])`
draw; `sqrtA` stands for `tf.sqrt`; `dGrads dParams loss` is the autodiff
oracle for `tape.gradient(loss, trainable_variables)`; and
`optApply o g p = (p', o')` is `self._d_optimiser.apply_gradients`. -/
structure TrainEnv where
  noise : Nat → Nat → List (List ℚ)
  generator : List ℚ → List ℚ → Sample
  discriminator : List ℚ → Sample → ℚ
  wLoss : List ℚ → List ℚ → ℚ
  gradD : List ℚ → Sample → Sample
  epsilon : Nat → List ℚ
  sqrtA : ℚ → ℚ
  dGrads : List ℚ → ℚ → List ℚ
  optApply : ℚ → List ℚ → List ℚ → List ℚ × ℚ

/-- The mutable model state a training step acts on.  `dMetric` records the
values pushed into `self._d_metric.update_state`; `dOptCalls` counts the
`apply_gradients` calls and `slices` records the real minibatch each call
consumed (observation counters for the stub optimizer, as the spec's test
guidance suggests). -/
structure GanState where
  dParams : List ℚ
  dOptState : ℚ
  dMetric : List ℚ
  dOptCalls : Nat
  slices : List (List Sample)
  gParams : List ℚ
  gOptState : ℚ
deriving DecidableEq

/-- Embeds `calc_gradient_penalty` (lines 205-209):
`grad_norm = sqrt(reduce_sum(square(gradients), axis=[1,2,3]) + 1e-8)`,
`grad_penalty = reduce_mean(square(grad_norm - 1))`. -/
def calcGradientPenalty (env : TrainEnv) (gradients : List Sample) : ℚ :=
  let gradNorm := gradients.map (fun g => env.sqrtA (sumSq g + 1 / 100000000))
  mean (gradNorm.map (fun x => (x - 1) ^ 2))

/-- Embeds `apply_gradient_penalty` (lines 166-203): drift term
`reduce_mean(square(discriminator(real_images)))`; per-sample
`epsilon ~ U[0,1)` broadcast over the non-batch axes;
`x_hat = epsilon * real + (1 - epsilon) * fake`; gradients of the critic
output w.r.t. `x_hat`; returns
`gradient_penalty_coeff * grad_penalty + drift_term_coeff * drift_term`. -/
def applyGradientPenalty (env : TrainEnv) (pCoeff dCoeff : ℚ)
    (dParams : List ℚ) (realImages fakeImages : List Sample) : ℚ :=
  let driftTerm := mean (realImages.map (fun x => (env.discriminator dParams x) ^ 2))
  let eps := env.epsilon fakeImages.length
  let xHat := zipWith3
    (fun e r f => sampleAdd (sampleScale e r) (sampleScale (1 - e) f))
    eps realImages fakeImages
  let gradients := xHat.map (env.gradD dParams)
  let gradPenalty := calcGradientPenalty env gradients
  pCoeff * gradPenalty + dCoeff * driftTerm

/-- Python truthiness of `self._gradient_penalty_coeff` in
`if self._gradient_penalty_coeff:` (line 155): `None` and `0.0` are falsy. -/
def penaltyActive : Option ℚ → Bool
  | none => false
  | some c => c != 0

/-- The adversarial part of the sub-iteration loss (lines 144-152): run the
critic once on `concat([real_batch, fake_images])` and split its output back
at `real_mb_size`. -/
def wassersteinBaseLoss (env : TrainEnv) (dParams : List ℚ)
    (realBatch fakeImages : List Sample) : ℚ :=
  let inputBatch := realBatch ++ fakeImages
  let pred := inputBatch.map (env.discriminator dParams)
  env.wLoss (pred.take realBatch.length) (pred.drop realBatch.length)

/-- The full sub-iteration loss (lines 147-156): the adversarial loss, plus
the gradient penalty when the stored coefficient is truthy. -/
def wassersteinLossTerm (env : TrainEnv) (cfg : ModelCfg) (dParams : List ℚ)
    (realBatch fakeImages : List Sample) : ℚ :=
  let lossBase := wassersteinBaseLoss env dParams realBatch fakeImages
  if penaltyActive cfg.gradientPenaltyCoeff then
    lossBase + applyGradientPenalty env (cfg.gradientPenaltyCoeff.getD 0)
      cfg.driftTermCoeff dParams realBatch fakeImages
  else
    lossBase

/-- Modelled from the spec: the application of the resolved constraint to the
critic's trainable weights immediately after each optimizer update.  The
constraint is attached via `self.build_discriminator(cfg, constraint=…)`
(line 110); `build_discriminator` and the Keras layer machinery that invokes
the attached kernel constraint after every `apply_gradients` are outside
`src/`, so this projection step follows the spec's §4.1/§4.3 wording.  With
no constraint attached (gradient-penalty mode) the weights pass through
untouched. -/
def applyConstraint : Option WeightClipConstraint → List ℚ → List ℚ
  | none, w => w
  | some c, w => c.call w

/-- One iteration of the critic training loop (`discriminator_step` body,
lines 126-164): slice `real_images[idx*mb : (idx+1)*mb]`; skip when the
slice is empty; otherwise draw latent noise, generate fakes, compute the
loss, apply one optimizer update (followed by the attached constraint, if
any) and push the loss into the metric. -/
def discStepIter (env : TrainEnv) (cfg : ModelCfg) (realImages : List Sample)
    (st : GanState) (idx : Nat) : GanState :=
  if ((realImages.drop (idx * cfg.mbSize)).take cfg.mbSize).length = 0 then
    st
  else
    let realBatch := (realImages.drop (idx * cfg.mbSize)).take cfg.mbSize
    let latentNoise := env.noise idx realBatch.length
    let fakeImages := latentNoise.map (env.generator st.gParams)
    let loss := wassersteinLossTerm env cfg st.dParams realBatch fakeImages
    let grads := env.dGrads st.dParams loss
    let upd := env.optApply st.dOptState grads st.dParams
    { st with
      dParams := applyConstraint cfg.constraint upd.1
      dOptState := upd.2
      dMetric := st.dMetric ++ [loss]
      dOptCalls := st.dOptCalls + 1
      slices := st.slices ++ [realBatch] }

/-- Embeds `discriminator_step` (lines 117-164): `for idx in range(self._n_critic)`
over the iteration body.  The Python method returns `None`; all its effects
are in the returned state. -/
def discriminatorStep (env : TrainEnv) (cfg : ModelCfg) (st : GanState)
    (realImages : List Sample) : GanState :=
  (List.range cfg.nCritic).foldl (discStepIter env cfg realImages) st

/-- The critic-step implementation an instance carries for its lifetime. -/
inductive CriticStepImpl where
  | base : CriticStepImpl
  | wasserstein : CriticStepImpl
deriving DecidableEq

/-- A constructed GAN instance: the step implementation chosen at
construction and the mutable training state. -/
structure GanInstance where
  stepImpl : CriticStepImpl
  state : GanState

/-- Embeds `GANMetaclass.__call__` (lines 41-51): if `cfg.loss == WASSERSTEIN`,
the class is rebuilt with `WassersteinMixin` first in the MRO, so the
instance's `discriminator_step` is the mixin's; otherwise the base class is
instantiated unchanged.  The decision happens once, at construction. -/
def ganMetaclassCall (cfg : DictConfig) (st0 : GanState) : GanInstance :=
  { stepImpl :=
      if cfg.loss = LossTypes.WASSERSTEIN then .wasserstein else .base
    state := st0 }

/-- One outer critic-training call on a constructed instance: dispatches to
the implementation fixed at construction (`baseStepFn` models the
out-of-scope base algorithm's `discriminator_step`). -/
def runTrainingStep (env : TrainEnv) (cfg : ModelCfg)
    (baseStepFn : GanState → List Sample → GanState)
    (inst : GanInstance) (realImages : List Sample) : GanInstance :=
  { inst with
    state :=
      match inst.stepImpl with
      | .wasserstein => discriminatorStep env cfg inst.state realImages
      | .base => baseStepFn inst.state realImages }

/-! ## Helper lemmas -/

/-- Ceiling division `(s + mb - 1) / mb` for positive `mb`. -/
def ceilDiv (s mb : Nat) : Nat :=
  (s + mb - 1) / mb

lemma slice_length (real : List Sample) (mb k : Nat) :
    ((real.drop k).take mb).length = min mb (real.length - k) := by
  simp [List.length_take, List.length_drop]

lemma lt_ceilDiv_iff {mb : Nat} (hmb : 0 < mb) (n s : Nat) :
    n < ceilDiv s mb ↔ n * mb < s := by
  unfold ceilDiv
  rw [Nat.lt_iff_add_one_le, Nat.le_div_iff_mul_le hmb]
  have h : (n + 1) * mb = n * mb + mb := by ring
  rw [h]
  generalize n * mb = t
  omega

lemma discStepIter_skip (env : TrainEnv) (cfg : ModelCfg) (real : List Sample)
    (st : GanState) (idx : Nat)
    (h : ((real.drop (idx * cfg.mbSize)).take cfg.mbSize).length = 0) :
    discStepIter env cfg real st idx = st := by
  unfold discStepIter
  rw [if_pos h]

lemma discStepIter_perform (env : TrainEnv) (cfg : ModelCfg)
    (real : List Sample) (st : GanState) (idx : Nat)
    (h : ((real.drop (idx * cfg.mbSize)).take cfg.mbSize).length ≠ 0) :
    (discStepIter env cfg real st idx).dOptCalls = st.dOptCalls + 1 ∧
    (discStepIter env cfg real st idx).dMetric.length = st.dMetric.length + 1 ∧
    (discStepIter env cfg real st idx).slices =
      st.slices ++ [(real.drop (idx * cfg.mbSize)).take cfg.mbSize] := by
  unfold discStepIter
  rw [if_neg h]
  simp

lemma discStepIter_gFrame (env : TrainEnv) (cfg : ModelCfg)
    (real : List Sample) (st : GanState) (idx : Nat) :
    (discStepIter env cfg real st idx).gParams = st.gParams ∧
    (discStepIter env cfg real st idx).gOptState = st.gOptState := by
  unfold discStepIter
  by_cases h : ((real.drop (idx * cfg.mbSize)).take cfg.mbSize).length = 0
  · rw [if_pos h]; exact ⟨rfl, rfl⟩
  · rw [if_neg h]; exact ⟨rfl, rfl⟩

lemma discStepLoop_gFrame (env : TrainEnv) (cfg : ModelCfg)
    (real : List Sample) : ∀ (l : List Nat) (st : GanState),
    ((l.foldl (discStepIter env cfg real) st).gParams = st.gParams ∧
      (l.foldl (discStepIter env cfg real) st).gOptState = st.gOptState)
  | [], _ => ⟨rfl, rfl⟩
  | i :: l, st => by
    have h1 := discStepIter_gFrame env cfg real st i
    have h2 := discStepLoop_gFrame env cfg real l (discStepIter env cfg real st i)
    simp only [List.foldl_cons]
    exact ⟨h2.1.trans h1.1, h2.2.trans h1.2⟩

lemma discStepLoop_spec (env : TrainEnv) (cfg : ModelCfg) (real : List Sample)
    (hmb : 0 < cfg.mbSize) : ∀ (n : Nat) (st : GanState),
    ((List.range n).foldl (discStepIter env cfg real) st).dOptCalls =
      st.dOptCalls + min n (ceilDiv real.length cfg.mbSize) ∧
    ((List.range n).foldl (discStepIter env cfg real) st).dMetric.length =
      st.dMetric.length + min n (ceilDiv real.length cfg.mbSize) ∧
    ((List.range n).foldl (discStepIter env cfg real) st).slices =
      st.slices ++ (List.range (min n (ceilDiv real.length cfg.mbSize))).map
        (fun idx => (real.drop (idx * cfg.mbSize)).take cfg.mbSize) := by
  intro n
  induction n with
  | zero => intro st; simp
  | succ n ih =>
    intro st
    rw [List.range_succ, List.foldl_append]
    simp only [List.foldl_cons, List.foldl_nil]
    obtain ⟨ih1, ih2, ih3⟩ := ih st
    by_cases hcase : n * cfg.mbSize < real.length
    · have hn : n < ceilDiv real.length cfg.mbSize :=
        (lt_ceilDiv_iff hmb n real.length).mpr hcase
      have hne : ((real.drop (n * cfg.mbSize)).take cfg.mbSize).length ≠ 0 := by
        rw [slice_length]
        generalize n * cfg.mbSize = t at hcase ⊢
        omega
      obtain ⟨p1, p2, p3⟩ := discStepIter_perform env cfg real
        ((List.range n).foldl (discStepIter env cfg real) st) n hne
      have hminn : min n (ceilDiv real.length cfg.mbSize) = n := by omega
      have hmin1 : min (n + 1) (ceilDiv real.length cfg.mbSize) = n + 1 := by
        omega
      refine ⟨?_, ?_, ?_⟩
      · rw [p1, ih1]; omega
      · rw [p2, ih2]; omega
      · rw [p3, ih3, hminn, hmin1, List.range_succ, List.map_append,
          List.append_assoc]
        simp
    · have hn : ¬ n < ceilDiv real.length cfg.mbSize := fun h =>
        hcase ((lt_ceilDiv_iff hmb n real.length).mp h)
      have hemp : ((real.drop (n * cfg.mbSize)).take cfg.mbSize).length = 0 := by
        rw [slice_length]
        generalize n * cfg.mbSize = t at hcase ⊢
        omega
      rw [discStepIter_skip env cfg real _ n hemp]
      have hmin : min (n + 1) (ceilDiv real.length cfg.mbSize) =
          min n (ceilDiv real.length cfg.mbSize) := by omega
      rw [hmin]
      exact ⟨ih1, ih2, ih3⟩

/-! ## Claim theorems -/

/-- C7: for every weight tensor `w` and bound `b > 0`, `clip(w, b)` returns a
tensor of the same shape in which every element lies in `[-b, b]`, and every
element with `|w_i| ≤ b` is returned unchanged.  (The function is a pure
`List` map, hence side-effect free and total.) -/
theorem clip_contract (b : ℚ) (w : List ℚ) (hb : 0 < b) :
    (((WeightClipConstraint.mk b).call w).length = w.length) ∧
    (∀ x ∈ (WeightClipConstraint.mk b).call w, -b ≤ x ∧ x ≤ b) ∧
    (∀ i : Nat, ∀ x : ℚ, w[i]? = some x → |x| ≤ b →
      ((WeightClipConstraint.mk b).call w)[i]? = some x) := by
  refine ⟨?_, ?_, ?_⟩
  · simp [WeightClipConstraint.call, clipByValue]
  · intro x hx
    simp only [WeightClipConstraint.call, clipByValue, List.mem_map] at hx
    obtain ⟨y, _, rfl⟩ := hx
    refine ⟨le_max_right _ _, max_le (min_le_right _ _) (by linarith)⟩
  · intro i x hx habs
    simp only [WeightClipConstraint.call, clipByValue, List.getElem?_map, hx,
      Option.map_some']
    rw [min_eq_left (abs_le.mp habs).2, max_eq_left (abs_le.mp habs).1]

/-- Witness for C7 at `b = 1`, `w = [2, -1/2]`. -/
theorem clip_contract_witness :
    (0 : ℚ) < 1 ∧
    ((((WeightClipConstraint.mk 1).call [2, -1/2]).length =
        ([2, -1/2] : List ℚ).length) ∧
      (∀ x ∈ (WeightClipConstraint.mk 1).call [2, -1/2],
        -(1 : ℚ) ≤ x ∧ x ≤ 1) ∧
      (∀ i : Nat, ∀ x : ℚ, (([2, -1/2] : List ℚ))[i]? = some x → |x| ≤ 1 →
        ((WeightClipConstraint.mk 1).call [2, -1/2])[i]? = some x)) :=
  ⟨by norm_num, clip_contract 1 [2, -1/2] (by norm_num)⟩

/-- C6: the critic-step implementation is chosen exactly once at
construction: `loss == WASSERSTEIN` yields the Wasserstein
`discriminator_step`, any other loss keeps the base step unmodified, a
training call dispatches on the stored implementation, and no call ever
changes the stored implementation. -/
theorem variant_selection :
    (∀ (cfg : DictConfig) (st0 : GanState),
      (ganMetaclassCall cfg st0).stepImpl =
        (if cfg.loss = LossTypes.WASSERSTEIN then .wasserstein else .base) ∧
      (ganMetaclassCall cfg st0).state = st0) ∧
    (∀ (env : TrainEnv) (mcfg : ModelCfg)
      (baseStepFn : GanState → List Sample → GanState)
      (inst : GanInstance) (real : List Sample),
      (runTrainingStep env mcfg baseStepFn inst real).stepImpl =
        inst.stepImpl) ∧
    (∀ (cfg : DictConfig) (env : TrainEnv) (mcfg : ModelCfg)
      (baseStepFn : GanState → List Sample → GanState)
      (st0 : GanState) (real : List Sample),
      (runTrainingStep env mcfg baseStepFn (ganMetaclassCall cfg st0)
          real).state =
        (if cfg.loss = LossTypes.WASSERSTEIN
         then discriminatorStep env mcfg st0 real
         else baseStepFn st0 real)) := by
  refine ⟨fun cfg st0 => ⟨rfl, rfl⟩, fun _ _ _ _ _ => rfl,
    fun cfg env mcfg baseStepFn st0 real => ?_⟩
  by_cases h : cfg.loss = LossTypes.WASSERSTEIN <;>
    simp [runTrainingStep, ganMetaclassCall, h]

/-- C8: a `discriminator_step` call mutates only the critic parameters, the
critic optimizer state and the loss-metric accumulator; the generator
parameters and the generator optimizer state are unchanged.  (The Python
method returns `None`: the embedding returns only the updated state.) -/
theorem critic_step_frame (env : TrainEnv) (cfg : ModelCfg) (st : GanState)
    (real : List Sample) :
    (discriminatorStep env cfg st real).gParams = st.gParams ∧
    (discriminatorStep env cfg st real).gOptState = st.gOptState :=
  discStepLoop_gFrame env cfg real (List.range cfg.nCritic) st

lemma ceilDiv_mul {mb : Nat} (hmb : 0 < mb) (n : Nat) :
    ceilDiv (n * mb) mb = n := by
  unfold ceilDiv
  have h : n * mb + mb - 1 = mb * n + (mb - 1) := by
    have h2 : n * mb = mb * n := Nat.mul_comm n mb
    omega
  calc (n * mb + mb - 1) / mb = (mb * n + (mb - 1)) / mb := by rw [h]
    _ = n + (mb - 1) / mb := Nat.mul_add_div hmb _ _
    _ = n := by
        have h3 : (mb - 1) / mb = 0 := Nat.div_eq_of_lt (by omega)
        omega

lemma ceilDiv_small {s mb : Nat} (h1 : 1 ≤ s) (h2 : s < mb) :
    ceilDiv s mb = 1 := by
  unfold ceilDiv
  have hmb : 0 < mb := by omega
  have ha : 1 ≤ (s + mb - 1) / mb := by
    rw [Nat.le_div_iff_mul_le hmb]; omega
  have hb : (s + mb - 1) / mb < 2 := by
    rw [Nat.div_lt_iff_lt_mul hmb]; omega
  omega

lemma ceilDiv_mod {s mb : Nat} (hmb : 0 < mb) (hmod : s % mb ≠ 0) :
    ceilDiv s mb = s / mb + 1 := by
  unfold ceilDiv
  have hdm : mb * (s / mb) + s % mb = s := Nat.div_add_mod s mb
  have hlt : s % mb < mb := Nat.mod_lt s hmb
  have h : s + mb - 1 = mb * (s / mb + 1) + (s % mb - 1) := by
    have h2 : mb * (s / mb + 1) = mb * (s / mb) + mb := by ring
    omega
  calc (s + mb - 1) / mb = (mb * (s / mb + 1) + (s % mb - 1)) / mb := by rw [h]
    _ = (s / mb + 1) + (s % mb - 1) / mb := Nat.mul_add_div hmb _ _
    _ = s / mb + 1 := by
        have h3 : (s % mb - 1) / mb = 0 := Nat.div_eq_of_lt (by omega)
        omega

lemma min_sub_div_mul {s mb : Nat} (hmb : 0 < mb) :
    min mb (s - s / mb * mb) = s % mb := by
  have hdm : mb * (s / mb) + s % mb = s := Nat.div_add_mod s mb
  have hlt : s % mb < mb := Nat.mod_lt s hmb
  have hc : s / mb * mb = mb * (s / mb) := Nat.mul_comm _ _
  omega

/-! ## Concrete fixtures used by witnesses and counterexamples -/

/-- A one-pixel sample. -/
def sampleT : Sample := [[[1]]]

/-- A concrete oracle environment with a stub optimizer that returns the
parameters unchanged. -/
def envT : TrainEnv :=
  { noise := fun _ k => List.replicate k []
    generator := fun _ _ => sampleT
    discriminator := fun _ _ => 0
    wLoss := fun _ _ => 0
    gradD := fun _ _ => sampleT
    epsilon := fun k => List.replicate k 0
    sqrtA := fun x => x
    dGrads := fun _ _ => []
    optApply := fun o _ p => (p, o) }

/-- An initial model state with empty accumulators. -/
def stT : GanState :=
  { dParams := [2], dOptState := 0, dMetric := [], dOptCalls := 0,
    slices := [], gParams := [3], gOptState := 0 }

/-- A concrete configuration: `n_critic = 2`, `minibatch_size = 4`, no
constraint, no gradient penalty. -/
def cfgSmallT : ModelCfg :=
  { nCritic := 2, mbSize := 4, latentDim := 16, gradientPenaltyCoeff := none,
    driftTermCoeff := 0, constraint := none }

/-- A concrete configuration: `n_critic = 2`, `minibatch_size = 1`. -/
def cfgFullT : ModelCfg :=
  { nCritic := 2, mbSize := 1, latentDim := 16, gradientPenaltyCoeff := none,
    driftTermCoeff := 0, constraint := none }

/-- A concrete configuration: `n_critic = 3`, `minibatch_size = 2`. -/
def cfgPartT : ModelCfg :=
  { nCritic := 3, mbSize := 2, latentDim := 16, gradientPenaltyCoeff := none,
    driftTermCoeff := 0, constraint := none }

/-- C4: for `n_critic ≥ 1` and a real batch of size exactly
`n_critic * minibatch_size`, one Critic Update Step performs exactly
`n_critic` optimizer updates — one per sub-iteration, each consuming the
slice `real_images[idx*mb : (idx+1)*mb]` — and exactly `n_critic` metric
updates. -/
theorem full_batch_update_count (env : TrainEnv) (cfg : ModelCfg)
    (st : GanState) (real : List Sample)
    (hn : 1 ≤ cfg.nCritic) (hmb : 1 ≤ cfg.mbSize)
    (hs : real.length = cfg.nCritic * cfg.mbSize) :
    (discriminatorStep env cfg st real).dOptCalls =
      st.dOptCalls + cfg.nCritic ∧
    (discriminatorStep env cfg st real).dMetric.length =
      st.dMetric.length + cfg.nCritic ∧
    (discriminatorStep env cfg st real).slices =
      st.slices ++ (List.range cfg.nCritic).map
        (fun idx => (real.drop (idx * cfg.mbSize)).take cfg.mbSize) := by
  unfold discriminatorStep
  obtain ⟨l1, l2, l3⟩ := discStepLoop_spec env cfg real hmb cfg.nCritic st
  have hceil : ceilDiv real.length cfg.mbSize = cfg.nCritic := by
    rw [hs, ceilDiv_mul hmb]
  rw [hceil, min_self] at l1 l2 l3
  exact ⟨l1, l2, l3⟩

/-- Witness for C4: `n_critic = 2`, `mb = 1`, batch of size 2. -/
theorem full_batch_update_count_witness :
    1 ≤ cfgFullT.nCritic ∧ 1 ≤ cfgFullT.mbSize ∧
    ([sampleT, sampleT] : List Sample).length =
      cfgFullT.nCritic * cfgFullT.mbSize ∧
    ((discriminatorStep envT cfgFullT stT [sampleT, sampleT]).dOptCalls =
        stT.dOptCalls + cfgFullT.nCritic ∧
      (discriminatorStep envT cfgFullT stT [sampleT, sampleT]).dMetric.length =
        stT.dMetric.length + cfgFullT.nCritic ∧
      (discriminatorStep envT cfgFullT stT [sampleT, sampleT]).slices =
        stT.slices ++ (List.range cfgFullT.nCritic).map
          (fun idx =>
            (([sampleT, sampleT] : List Sample).drop
              (idx * cfgFullT.mbSize)).take cfgFullT.mbSize)) :=
  ⟨by decide, by decide, by decide,
    full_batch_update_count envT cfgFullT stT [sampleT, sampleT]
      (by decide) (by decide) (by decide)⟩

/-- C9: for a batch of size `s ≥ 1`, one `discriminator_step` call performs
exactly `min n_critic ⌈s / mb⌉` optimizer updates and the same number of
metric updates; the performed sub-iterations are exactly the ones with a
nonempty slice, in order, and when `s` is not a multiple of `mb` and all of
`⌈s / mb⌉` sub-iterations fit into `n_critic`, the final performed
sub-iteration consumes a partial slice of size `s % mb`. -/
theorem general_update_count (env : TrainEnv) (cfg : ModelCfg)
    (st : GanState) (real : List Sample)
    (hmb : 1 ≤ cfg.mbSize) (hs : 1 ≤ real.length) :
    (discriminatorStep env cfg st real).dOptCalls =
      st.dOptCalls + min cfg.nCritic (ceilDiv real.length cfg.mbSize) ∧
    (discriminatorStep env cfg st real).dMetric.length =
      st.dMetric.length + min cfg.nCritic (ceilDiv real.length cfg.mbSize) ∧
    (discriminatorStep env cfg st real).slices =
      st.slices ++
        (List.range (min cfg.nCritic (ceilDiv real.length cfg.mbSize))).map
          (fun idx => (real.drop (idx * cfg.mbSize)).take cfg.mbSize) ∧
    (real.length % cfg.mbSize ≠ 0 →
      ceilDiv real.length cfg.mbSize ≤ cfg.nCritic →
      ((real.drop
          ((min cfg.nCritic (ceilDiv real.length cfg.mbSize) - 1) *
            cfg.mbSize)).take cfg.mbSize).length =
        real.length % cfg.mbSize) := by
  unfold discriminatorStep
  obtain ⟨l1, l2, l3⟩ := discStepLoop_spec env cfg real hmb cfg.nCritic st
  refine ⟨l1, l2, l3, fun hmod hle => ?_⟩
  have hceq : ceilDiv real.length cfg.mbSize = real.length / cfg.mbSize + 1 :=
    ceilDiv_mod hmb hmod
  rw [min_eq_right hle, hceq, Nat.add_sub_cancel, slice_length]
  exact min_sub_div_mul hmb

/-- Witness for C9: `n_critic = 3`, `mb = 2`, batch of size 3 (last slice
partial, of size 1). -/
theorem general_update_count_witness :
    1 ≤ cfgPartT.mbSize ∧
    1 ≤ ([sampleT, sampleT, sampleT] : List Sample).length ∧
    ((discriminatorStep envT cfgPartT stT
        [sampleT, sampleT, sampleT]).dOptCalls =
      stT.dOptCalls + min cfgPartT.nCritic
        (ceilDiv ([sampleT, sampleT, sampleT] : List Sample).length
          cfgPartT.mbSize) ∧
    (discriminatorStep envT cfgPartT stT
        [sampleT, sampleT, sampleT]).dMetric.length =
      stT.dMetric.length + min cfgPartT.nCritic
        (ceilDiv ([sampleT, sampleT, sampleT] : List Sample).length
          cfgPartT.mbSize) ∧
    (discriminatorStep envT cfgPartT stT
        [sampleT, sampleT, sampleT]).slices =
      stT.slices ++
        (List.range (min cfgPartT.nCritic
          (ceilDiv ([sampleT, sampleT, sampleT] : List Sample).length
            cfgPartT.mbSize))).map
          (fun idx =>
            (([sampleT, sampleT, sampleT] : List Sample).drop
              (idx * cfgPartT.mbSize)).take cfgPartT.mbSize) ∧
    (([sampleT, sampleT, sampleT] : List Sample).length % cfgPartT.mbSize ≠ 0 →
      ceilDiv ([sampleT, sampleT, sampleT] : List Sample).length
          cfgPartT.mbSize ≤ cfgPartT.nCritic →
      ((([sampleT, sampleT, sampleT] : List Sample).drop
          ((min cfgPartT.nCritic
            (ceilDiv ([sampleT, sampleT, sampleT] : List Sample).length
              cfgPartT.mbSize) - 1) *
            cfgPartT.mbSize)).take cfgPartT.mbSize).length =
        ([sampleT, sampleT, sampleT] : List Sample).length %
          cfgPartT.mbSize)) :=
  ⟨by decide, by decide,
    general_update_count envT cfgPartT stT [sampleT, sampleT, sampleT]
      (by decide) (by decide)⟩

/-- C1 counterexample: `n_critic = 2`, `minibatch_size = 4`, a real batch of
size 1 (so `0 < s < minibatch_size`).  The claim says the step performs zero
optimizer updates and leaves the metric accumulator unchanged; in fact the
first slice `real_images[0:4]` is the nonempty partial batch, so one update
is performed and one loss value is recorded. -/
theorem small_batch_zero_updates_cex :
    ¬ ((discriminatorStep envT cfgSmallT stT [sampleT]).dOptCalls =
        stT.dOptCalls ∧
      (discriminatorStep envT cfgSmallT stT [sampleT]).dMetric =
        stT.dMetric) := by
  decide

/-- C1 amended: for a nonempty real batch smaller than `minibatch_size`
(and `n_critic ≥ 1`), the Critic Update Step performs exactly one optimizer
update — consuming the whole partial batch as its slice — and updates the
loss-metric accumulator exactly once; only the remaining `n_critic - 1`
sub-iterations see empty slices and are skipped. -/
theorem small_batch_single_update (env : TrainEnv) (cfg : ModelCfg)
    (st : GanState) (real : List Sample)
    (hn : 1 ≤ cfg.nCritic) (h1 : 1 ≤ real.length)
    (h2 : real.length < cfg.mbSize) :
    (discriminatorStep env cfg st real).dOptCalls = st.dOptCalls + 1 ∧
    (discriminatorStep env cfg st real).dMetric.length =
      st.dMetric.length + 1 ∧
    (discriminatorStep env cfg st real).slices = st.slices ++ [real] := by
  unfold discriminatorStep
  have hmb : 0 < cfg.mbSize := by omega
  obtain ⟨l1, l2, l3⟩ := discStepLoop_spec env cfg real hmb cfg.nCritic st
  have hceil : ceilDiv real.length cfg.mbSize = 1 := ceilDiv_small h1 h2
  have hmin : min cfg.nCritic (ceilDiv real.length cfg.mbSize) = 1 := by
    omega
  rw [hmin] at l1 l2 l3
  refine ⟨l1, l2, ?_⟩
  rw [l3]
  simp only [List.range_succ, List.range_zero, List.nil_append, List.map_cons,
    List.map_nil, Nat.zero_mul, List.drop_zero]
  rw [List.take_of_length_le (le_of_lt h2)]

/-- Witness for the amended C1: `n_critic = 2`, `mb = 4`, batch of size 1. -/
theorem small_batch_single_update_witness :
    1 ≤ cfgSmallT.nCritic ∧ 1 ≤ ([sampleT] : List Sample).length ∧
    ([sampleT] : List Sample).length < cfgSmallT.mbSize ∧
    ((discriminatorStep envT cfgSmallT stT [sampleT]).dOptCalls =
        stT.dOptCalls + 1 ∧
      (discriminatorStep envT cfgSmallT stT [sampleT]).dMetric.length =
        stT.dMetric.length + 1 ∧
      (discriminatorStep envT cfgSmallT stT [sampleT]).slices =
        stT.slices ++ [[sampleT]]) :=
  ⟨by decide, by decide, by decide,
    small_batch_single_update envT cfgSmallT stT [sampleT]
      (by decide) (by decide) (by decide)⟩

/-- The Gradient-Penalty Evaluator output as the spec states it: the scalar
`penalty_coeff * mean_over_batch((grad_norm - 1)^2)
 + drift_coeff * mean(critic(real_batch)^2)`, where
`grad_norm = sqrt(sum of squared gradient of critic(x_hat) w.r.t. x_hat
 over all non-batch dimensions + 1e-8)` and
`x_hat = epsilon * real + (1 - epsilon) * fake` with one epsilon per sample
broadcast across spatial/channel dimensions; the drift term is computed on
the real batch without interpolation.  This definition follows the spec's
words and is compared against `applyGradientPenalty`, which is read off the
source. -/
def gradientPenaltySpec (env : TrainEnv) (pCoeff dCoeff : ℚ)
    (dParams : List ℚ) (realImages fakeImages : List Sample) : ℚ :=
  let xHat := zipWith3
    (fun e r f => sampleAdd (sampleScale e r) (sampleScale (1 - e) f))
    (env.epsilon fakeImages.length) realImages fakeImages
  pCoeff * mean (xHat.map
      (fun x =>
        (env.sqrtA (sumSq (env.gradD dParams x) + 1 / 100000000) - 1) ^ 2)) +
    dCoeff * mean (realImages.map
      (fun x => (env.discriminator dParams x) ^ 2))

/-- C3: for nonempty equal-sized real and fake batches, a positive penalty
coefficient, a nonnegative drift coefficient and per-sample epsilons drawn
from `[0, 1)`, the source's `apply_gradient_penalty` returns exactly the
spec's scalar `penalty_coeff * mean((grad_norm - 1)^2)
 + drift_coeff * mean(critic(real)^2)`. -/
theorem gradient_penalty_formula (env : TrainEnv) (pCoeff dCoeff : ℚ)
    (dParams : List ℚ) (realImages fakeImages : List Sample)
    (hlen : realImages.length = fakeImages.length)
    (hne : 0 < fakeImages.length)
    (hp : 0 < pCoeff) (hd : 0 ≤ dCoeff)
    (heps : (env.epsilon fakeImages.length).length = fakeImages.length)
    (hunif : ∀ e ∈ env.epsilon fakeImages.length, 0 ≤ e ∧ e < 1) :
    applyGradientPenalty env pCoeff dCoeff dParams realImages fakeImages =
      gradientPenaltySpec env pCoeff dCoeff dParams realImages fakeImages := by
  unfold applyGradientPenalty gradientPenaltySpec calcGradientPenalty
  simp only [List.map_map, Function.comp_def]

/-- Witness for C3 at a concrete one-sample batch, `penalty_coeff = 10`,
`drift_coeff = 0`. -/
theorem gradient_penalty_formula_witness :
    ([sampleT] : List Sample).length = ([sampleT] : List Sample).length ∧
    0 < ([sampleT] : List Sample).length ∧
    (0 : ℚ) < 10 ∧ (0 : ℚ) ≤ 0 ∧
    (envT.epsilon ([sampleT] : List Sample).length).length =
      ([sampleT] : List Sample).length ∧
    (∀ e ∈ envT.epsilon ([sampleT] : List Sample).length, 0 ≤ e ∧ e < 1) ∧
    applyGradientPenalty envT 10 0 [] [sampleT] [sampleT] =
      gradientPenaltySpec envT 10 0 [] [sampleT] [sampleT] :=
  ⟨rfl, by decide, by norm_num, le_refl 0, by decide, by decide,
    gradient_penalty_formula envT 10 0 [] [sampleT] [sampleT] rfl (by decide)
      (by norm_num) (le_refl 0) (by decide) (by decide)⟩

/-! ## Construction-mode lemmas -/

lemma initWasserstein_clip (cfg : DictConfig) (n : Nat) (cv : ℚ)
    (hn : cfg.nCritic = some n)
    (hw : cfg.wassersteinType = some WassersteinTypes.CLIP_WEIGHTS)
    (hc : cfg.clipValue = some cv) :
    initWasserstein cfg =
      .ok { nCritic := n, gradientPenaltyCoeff := none,
            driftTermCoeff := 0, constraint := some ⟨cv⟩ } := by
  unfold initWasserstein
  simp only [hn, hw, hc]
  simp

lemma initWasserstein_gp (cfg : DictConfig) (n : Nat) (gp : ℚ)
    (hn : cfg.nCritic = some n)
    (hw : cfg.wassersteinType = some WassersteinTypes.GRADIENT_PENALTY)
    (hg : cfg.gradientPenalty = some gp) :
    initWasserstein cfg =
      .ok { nCritic := n, gradientPenaltyCoeff := some gp,
            driftTermCoeff := cfg.driftTerm.getD 0, constraint := none } := by
  unfold initWasserstein
  simp only [hn, hw, hg]
  simp
  intro h
  exact absurd h (by decide)

lemma clip_call_bounded (cv : ℚ) (hcv : 0 ≤ cv) (w : List ℚ) :
    ∀ x ∈ (WeightClipConstraint.mk cv).call w, |x| ≤ cv := by
  intro x hx
  simp only [WeightClipConstraint.call, clipByValue, List.mem_map] at hx
  obtain ⟨y, _, rfl⟩ := hx
  rw [abs_le]
  exact ⟨le_max_right _ _, max_le (min_le_right _ _) (by linarith)⟩

lemma discStepIter_clip_bounded (env : TrainEnv) (cfg : ModelCfg)
    (real : List Sample) (cv : ℚ) (hcon : cfg.constraint = some ⟨cv⟩)
    (hcv : 0 ≤ cv) (st : GanState) (idx : Nat)
    (h : ((real.drop (idx * cfg.mbSize)).take cfg.mbSize).length ≠ 0) :
    ∀ w ∈ (discStepIter env cfg real st idx).dParams, |w| ≤ cv := by
  unfold discStepIter
  rw [if_neg h]
  intro w hw
  simp only [hcon] at hw
  exact clip_call_bounded cv hcv _ w hw

lemma discStepLoop_clip_bounded (env : TrainEnv) (cfg : ModelCfg)
    (real : List Sample) (cv : ℚ) (hcon : cfg.constraint = some ⟨cv⟩)
    (hcv : 0 ≤ cv) (hmb : 0 < cfg.mbSize) : ∀ (n : Nat) (st : GanState),
    (∃ idx, idx < n ∧ idx * cfg.mbSize < real.length) →
    ∀ w ∈ ((List.range n).foldl (discStepIter env cfg real) st).dParams,
      |w| ≤ cv := by
  intro n
  induction n with
  | zero =>
    intro st h
    obtain ⟨idx, hidx, _⟩ := h
    omega
  | succ n ih =>
    intro st h
    obtain ⟨idx, hidx, hlt⟩ := h
    rw [List.range_succ, List.foldl_append]
    simp only [List.foldl_cons, List.foldl_nil]
    by_cases hcase : n * cfg.mbSize < real.length
    · have hne : ((real.drop (n * cfg.mbSize)).take cfg.mbSize).length ≠ 0 := by
        rw [slice_length]
        generalize n * cfg.mbSize = t at hcase ⊢
        omega
      exact discStepIter_clip_bounded env cfg real cv hcon hcv _ n hne
    · have hemp : ((real.drop (n * cfg.mbSize)).take cfg.mbSize).length = 0 := by
        rw [slice_length]
        generalize n * cfg.mbSize = t at hcase ⊢
        omega
      rw [discStepIter_skip env cfg real _ n hemp]
      have hidx2 : idx < n := by
        rcases Nat.lt_or_ge idx n with h2 | h2
        · exact h2
        · exfalso
          have : n * cfg.mbSize ≤ idx * cfg.mbSize :=
            Nat.mul_le_mul_right _ h2
          omega
      exact ih st ⟨idx, hidx2, hlt⟩

lemma discStepIter_id_params (env : TrainEnv) (cfg : ModelCfg)
    (real : List Sample) (hcon : cfg.constraint = none)
    (hopt : env.optApply = fun o _ p => (p, o)) (st : GanState) (idx : Nat) :
    (discStepIter env cfg real st idx).dParams = st.dParams := by
  unfold discStepIter
  by_cases h : ((real.drop (idx * cfg.mbSize)).take cfg.mbSize).length = 0
  · rw [if_pos h]
  · rw [if_neg h]
    simp only [hcon, hopt, applyConstraint]

lemma discStepLoop_id_params (env : TrainEnv) (cfg : ModelCfg)
    (real : List Sample) (hcon : cfg.constraint = none)
    (hopt : env.optApply = fun o _ p => (p, o)) :
    ∀ (l : List Nat) (st : GanState),
    (l.foldl (discStepIter env cfg real) st).dParams = st.dParams
  | [], _ => rfl
  | i :: l, st => by
    have h1 := discStepIter_id_params env cfg real hcon hopt st i
    have h2 := discStepLoop_id_params env cfg real hcon hopt l
      (discStepIter env cfg real st i)
    simp only [List.foldl_cons]
    exact h2.trans h1

/-- A clip-mode raw config (with a gradient-penalty value also present,
which clip mode never reads). -/
def cfgCT : DictConfig :=
  { loss := .WASSERSTEIN,
    wassersteinType := some WassersteinTypes.CLIP_WEIGHTS,
    nCritic := some 1, clipValue := some (1/2), gradientPenalty := some 10,
    driftTerm := none }

/-- A gradient-penalty-mode raw config with coefficient 10. -/
def cfgGT : DictConfig :=
  { loss := .WASSERSTEIN,
    wassersteinType := some WassersteinTypes.GRADIENT_PENALTY,
    nCritic := some 1, clipValue := none, gradientPenalty := some 10,
    driftTerm := none }

/-- A gradient-penalty-mode raw config with coefficient 0. -/
def cfgG0T : DictConfig :=
  { loss := .WASSERSTEIN,
    wassersteinType := some WassersteinTypes.GRADIENT_PENALTY,
    nCritic := some 1, clipValue := none, gradientPenalty := some 0,
    driftTerm := some (1/1000) }

/-- C2: an instance constructed in clip mode carries the
`WeightClipConstraint`, the constraint is applied to the critic weights
after every performed optimizer update (so every weight satisfies
`|w| ≤ clip_value` immediately after each update, and after any training
step that performs at least one update); an instance constructed in
gradient-penalty mode carries no constraint, so with a stub
identity optimizer the critic weights — including any weight initialized
outside `[-clip_value, clip_value]` — pass through a whole training step
unclamped. -/
theorem constraint_mode_invariant
    (cfgC cfgG : DictConfig) (nC nG mb ld : Nat) (cv gp : ℚ)
    (env : TrainEnv) (st : GanState) (real : List Sample)
    (hcv : 0 < cv)
    (hnC : cfgC.nCritic = some nC)
    (hwC : cfgC.wassersteinType = some WassersteinTypes.CLIP_WEIGHTS)
    (hcC : cfgC.clipValue = some cv)
    (hnG : cfgG.nCritic = some nG)
    (hwG : cfgG.wassersteinType = some WassersteinTypes.GRADIENT_PENALTY)
    (hgG : cfgG.gradientPenalty = some gp)
    (hn1 : 1 ≤ nC) (hmb : 1 ≤ mb) (hs : 1 ≤ real.length)
    (hopt : env.optApply = fun o _ p => (p, o)) :
    (∃ F, initWasserstein cfgC = .ok F ∧ F.constraint = some ⟨cv⟩ ∧
      (∀ (st' : GanState) (idx : Nat),
        ((real.drop (idx * mb)).take mb).length ≠ 0 →
        ∀ w ∈ (discStepIter env (mkModelCfg F mb ld) real st' idx).dParams,
          |w| ≤ cv) ∧
      (∀ w ∈ (discriminatorStep env (mkModelCfg F mb ld) st real).dParams,
        |w| ≤ cv)) ∧
    (∃ F, initWasserstein cfgG = .ok F ∧ F.constraint = none ∧
      (discriminatorStep env (mkModelCfg F mb ld) st real).dParams =
        st.dParams) := by
  constructor
  · refine ⟨_, initWasserstein_clip cfgC nC cv hnC hwC hcC, rfl, ?_, ?_⟩
    · intro st' idx hne
      exact discStepIter_clip_bounded env _ real cv rfl (le_of_lt hcv)
        st' idx hne
    · unfold discriminatorStep
      exact discStepLoop_clip_bounded env _ real cv rfl (le_of_lt hcv)
        (by simp [mkModelCfg]; omega) _ st
        ⟨0, by simp [mkModelCfg]; omega, by simp [mkModelCfg]; omega⟩
  · refine ⟨_, initWasserstein_gp cfgG nG gp hnG hwG hgG, rfl, ?_⟩
    unfold discriminatorStep
    exact discStepLoop_id_params env _ real rfl hopt _ st

/-- Witness for C2: clip mode with `clip_value = 1/2` and an initial critic
weight `2` outside the clip range; gradient-penalty mode with the same
initial weight and a stub identity optimizer. -/
theorem constraint_mode_invariant_witness :
    (0 : ℚ) < 1/2 ∧
    cfgCT.nCritic = some 1 ∧
    cfgCT.wassersteinType = some WassersteinTypes.CLIP_WEIGHTS ∧
    cfgCT.clipValue = some (1/2) ∧
    cfgGT.nCritic = some 1 ∧
    cfgGT.wassersteinType = some WassersteinTypes.GRADIENT_PENALTY ∧
    cfgGT.gradientPenalty = some 10 ∧
    1 ≤ 1 ∧ 1 ≤ 1 ∧ 1 ≤ ([sampleT] : List Sample).length ∧
    envT.optApply = (fun o _ p => (p, o)) ∧
    ((∃ F, initWasserstein cfgCT = .ok F ∧ F.constraint = some ⟨1/2⟩ ∧
      (∀ (st' : GanState) (idx : Nat),
        ((([sampleT] : List Sample).drop (idx * 1)).take 1).length ≠ 0 →
        ∀ w ∈ (discStepIter envT (mkModelCfg F 1 16) [sampleT]
            st' idx).dParams,
          |w| ≤ 1/2) ∧
      (∀ w ∈ (discriminatorStep envT (mkModelCfg F 1 16) stT
          [sampleT]).dParams,
        |w| ≤ 1/2)) ∧
    (∃ F, initWasserstein cfgGT = .ok F ∧ F.constraint = none ∧
      (discriminatorStep envT (mkModelCfg F 1 16) stT [sampleT]).dParams =
        stT.dParams)) :=
  ⟨by norm_num, rfl, rfl, rfl, rfl, rfl, rfl, le_refl 1, le_refl 1,
    by decide, rfl,
    constraint_mode_invariant cfgCT cfgGT 1 1 1 16 (1/2) 10 envT stT
      [sampleT] (by norm_num) rfl rfl rfl rfl rfl rfl (le_refl 1) (le_refl 1)
      (by decide) rfl⟩

/-- C10: the gradient penalty is added to a sub-iteration's loss iff the
stored coefficient is truthy — non-`None` and nonzero; when it is falsy the
loss is exactly the adversarial base loss (so neither the penalty nor the
drift term enters, whatever `drift_term_coeff` is and whatever the penalty
oracles return); a clip-mode instance stores `None` and its
`gradient_penalty` accessor returns `None`; a gradient-penalty-mode instance
with coefficient `0.0` stores `some 0`, which is falsy. -/
theorem gradient_penalty_gating
    (cfgC cfgG : DictConfig) (nC nG : Nat) (cv : ℚ)
    (hnC : cfgC.nCritic = some nC)
    (hwC : cfgC.wassersteinType = some WassersteinTypes.CLIP_WEIGHTS)
    (hcC : cfgC.clipValue = some cv)
    (hnG : cfgG.nCritic = some nG)
    (hwG : cfgG.wassersteinType = some WassersteinTypes.GRADIENT_PENALTY)
    (hgG : cfgG.gradientPenalty = some 0) :
    (∀ o : Option ℚ, penaltyActive o = true ↔ o ≠ none ∧ o ≠ some 0) ∧
    (∀ (env : TrainEnv) (cfg : ModelCfg) (d : List ℚ) (rb fi : List Sample),
      penaltyActive cfg.gradientPenaltyCoeff = false →
      wassersteinLossTerm env cfg d rb fi = wassersteinBaseLoss env d rb fi) ∧
    (∃ F, initWasserstein cfgC = .ok F ∧ F.gradientPenaltyCoeff = none ∧
      F.gradient_penalty = none) ∧
    (∃ F, initWasserstein cfgG = .ok F ∧ F.gradientPenaltyCoeff = some 0 ∧
      penaltyActive F.gradientPenaltyCoeff = false) := by
  refine ⟨?_, ?_, ?_, ?_⟩
  · intro o
    cases o with
    | none => simp [penaltyActive]
    | some c => simp [penaltyActive]
  · intro env cfg d rb fi hfalse
    simp [wassersteinLossTerm, hfalse]
  · exact ⟨_, initWasserstein_clip cfgC nC cv hnC hwC hcC, rfl, rfl⟩
  · exact ⟨_, initWasserstein_gp cfgG nG 0 hnG hwG hgG, rfl, rfl⟩

/-- Witness for C10: the clip-mode config and a penalty-mode config with
`gradient_penalty = 0.0`. -/
theorem gradient_penalty_gating_witness :
    cfgCT.nCritic = some 1 ∧
    cfgCT.wassersteinType = some WassersteinTypes.CLIP_WEIGHTS ∧
    cfgCT.clipValue = some (1/2) ∧
    cfgG0T.nCritic = some 1 ∧
    cfgG0T.wassersteinType = some WassersteinTypes.GRADIENT_PENALTY ∧
    cfgG0T.gradientPenalty = some 0 ∧
    ((∀ o : Option ℚ, penaltyActive o = true ↔ o ≠ none ∧ o ≠ some 0) ∧
    (∀ (env : TrainEnv) (cfg : ModelCfg) (d : List ℚ) (rb fi : List Sample),
      penaltyActive cfg.gradientPenaltyCoeff = false →
      wassersteinLossTerm env cfg d rb fi = wassersteinBaseLoss env d rb fi) ∧
    (∃ F, initWasserstein cfgCT = .ok F ∧ F.gradientPenaltyCoeff = none ∧
      F.gradient_penalty = none) ∧
    (∃ F, initWasserstein cfgG0T = .ok F ∧ F.gradientPenaltyCoeff = some 0 ∧
      penaltyActive F.gradientPenaltyCoeff = false)) :=
  ⟨rfl, rfl, rfl, rfl, rfl, rfl,
    gradient_penalty_gating cfgCT cfgG0T 1 1 (1/2) rfl rfl rfl rfl rfl rfl⟩

/-- A raw config with BOTH a clip value and a gradient-penalty coefficient
configured. -/
def cfgBothT : DictConfig :=
  { loss := .WASSERSTEIN,
    wassersteinType := some WassersteinTypes.CLIP_WEIGHTS,
    nCritic := some 5, clipValue := some (1/100), gradientPenalty := some 10,
    driftTerm := some (1/1000) }

/-- A raw config with NEITHER constraint configured (a `wasserstein_type`
matching neither enum member, no clip value, no penalty coefficient). -/
def cfgNeitherT : DictConfig :=
  { loss := .WASSERSTEIN, wassersteinType := some "none",
    nCritic := some 5, clipValue := none, gradientPenalty := none,
    driftTerm := none }

/-- C5 counterexample: construction does NOT fail fast.  With both a clip
value and a gradient-penalty coefficient configured, `__init__` succeeds in
clip mode (silently ignoring the penalty coefficient); with neither
configured, it succeeds with no constraint and a `None` coefficient. -/
theorem misconfig_no_failfast_cex :
    initWasserstein cfgBothT =
      .ok { nCritic := 5, gradientPenaltyCoeff := none,
            driftTermCoeff := 0, constraint := some ⟨1/100⟩ } ∧
    initWasserstein cfgNeitherT =
      .ok { nCritic := 5, gradientPenaltyCoeff := none,
            driftTermCoeff := 0, constraint := none } :=
  ⟨rfl, rfl⟩

/-- A raw config with both settings configured and `GRADIENT_PENALTY`
selected (the clip value is never read). -/
def cfgBothGpT : DictConfig :=
  { loss := .WASSERSTEIN,
    wassersteinType := some WassersteinTypes.GRADIENT_PENALTY,
    nCritic := some 5, clipValue := some (1/100), gradientPenalty := some 10,
    driftTerm := some (1/1000) }

lemma initWasserstein_ok_iff (cfg : DictConfig) :
    (∃ F, initWasserstein cfg = .ok F) ↔
    (cfg.nCritic ≠ none ∧ cfg.wassersteinType ≠ none ∧
      (cfg.wassersteinType = some WassersteinTypes.CLIP_WEIGHTS →
        cfg.clipValue ≠ none) ∧
      (cfg.wassersteinType = some WassersteinTypes.GRADIENT_PENALTY →
        cfg.gradientPenalty ≠ none)) := by
  rcases hcn : cfg.nCritic with _ | n
  · simp [initWasserstein, hcn]
  · rcases hwt : cfg.wassersteinType with _ | wt
    · simp [initWasserstein, hcn, hwt]
    · by_cases h1 : wt = WassersteinTypes.CLIP_WEIGHTS
      · subst h1
        rcases hcv : cfg.clipValue with _ | cv
        · simp [initWasserstein, hcn, hwt, hcv, WassersteinTypes.CLIP_WEIGHTS,
            WassersteinTypes.GRADIENT_PENALTY]
        · simp [initWasserstein, hcn, hwt, hcv, WassersteinTypes.CLIP_WEIGHTS,
            WassersteinTypes.GRADIENT_PENALTY]
      · by_cases h2 : wt = WassersteinTypes.GRADIENT_PENALTY
        · subst h2
          rcases hgp : cfg.gradientPenalty with _ | gp
          · simp [initWasserstein, hcn, hwt, hgp, h1,
              WassersteinTypes.CLIP_WEIGHTS, WassersteinTypes.GRADIENT_PENALTY]
          · simp [initWasserstein, hcn, hwt, hgp, h1,
              WassersteinTypes.CLIP_WEIGHTS, WassersteinTypes.GRADIENT_PENALTY]
        · simp [initWasserstein, hcn, hwt, h1, h2]

/-- C5 amended: construction does not fail fast on these misconfigurations.
With both a clip value and a gradient-penalty coefficient configured, the
instance is constructed in the single mode selected by `wasserstein_type`
and the other setting is silently ignored — clip selected: the penalty
coefficient is ignored and the stored coefficient stays `None`;
gradient-penalty selected: the clip value is ignored and no constraint is
attached.  With neither constraint configured (a `wasserstein_type`
matching neither enum member), the instance is constructed with no
constraint active and no penalty coefficient.  Construction fails exactly
when an attribute read on the selected path is missing: `n_critic` or
`wasserstein_type` absent, `clip_value` absent in clip mode, or
`gradient_penalty` absent in gradient-penalty mode. -/
theorem misconfig_silent_acceptance
    (cfgB1 cfgB2 cfgN : DictConfig) (n1 n2 m : Nat) (cv1 cv2 gp1 gp2 : ℚ)
    (wt : String)
    (hn1 : cfgB1.nCritic = some n1)
    (hw1 : cfgB1.wassersteinType = some WassersteinTypes.CLIP_WEIGHTS)
    (hc1 : cfgB1.clipValue = some cv1)
    (hg1 : cfgB1.gradientPenalty = some gp1)
    (hn2 : cfgB2.nCritic = some n2)
    (hw2 : cfgB2.wassersteinType = some WassersteinTypes.GRADIENT_PENALTY)
    (hc2 : cfgB2.clipValue = some cv2)
    (hg2 : cfgB2.gradientPenalty = some gp2)
    (hnN : cfgN.nCritic = some m)
    (hwN : cfgN.wassersteinType = some wt)
    (hwt1 : wt ≠ WassersteinTypes.CLIP_WEIGHTS)
    (hwt2 : wt ≠ WassersteinTypes.GRADIENT_PENALTY) :
    initWasserstein cfgB1 =
      .ok { nCritic := n1, gradientPenaltyCoeff := none,
            driftTermCoeff := 0, constraint := some ⟨cv1⟩ } ∧
    initWasserstein cfgB2 =
      .ok { nCritic := n2, gradientPenaltyCoeff := some gp2,
            driftTermCoeff := cfgB2.driftTerm.getD 0, constraint := none } ∧
    initWasserstein cfgN =
      .ok { nCritic := m, gradientPenaltyCoeff := none,
            driftTermCoeff := 0, constraint := none } ∧
    (∀ cfg : DictConfig,
      (∃ F, initWasserstein cfg = .ok F) ↔
      (cfg.nCritic ≠ none ∧ cfg.wassersteinType ≠ none ∧
        (cfg.wassersteinType = some WassersteinTypes.CLIP_WEIGHTS →
          cfg.clipValue ≠ none) ∧
        (cfg.wassersteinType = some WassersteinTypes.GRADIENT_PENALTY →
          cfg.gradientPenalty ≠ none))) := by
  refine ⟨initWasserstein_clip cfgB1 n1 cv1 hn1 hw1 hc1,
    initWasserstein_gp cfgB2 n2 gp2 hn2 hw2 hg2, ?_,
    fun cfg => initWasserstein_ok_iff cfg⟩
  unfold initWasserstein
  simp only [hnN, hwN]
  rw [if_neg hwt1, if_neg hwt2]

/-- Witness for the amended C5 at three concrete configs: both-configured
with clip selected, both-configured with gradient penalty selected, and
neither configured. -/
theorem misconfig_silent_acceptance_witness :
    cfgBothT.nCritic = some 5 ∧
    cfgBothT.wassersteinType = some WassersteinTypes.CLIP_WEIGHTS ∧
    cfgBothT.clipValue = some (1/100) ∧
    cfgBothT.gradientPenalty = some 10 ∧
    cfgBothGpT.nCritic = some 5 ∧
    cfgBothGpT.wassersteinType = some WassersteinTypes.GRADIENT_PENALTY ∧
    cfgBothGpT.clipValue = some (1/100) ∧
    cfgBothGpT.gradientPenalty = some 10 ∧
    cfgNeitherT.nCritic = some 5 ∧
    cfgNeitherT.wassersteinType = some "none" ∧
    ("none" : String) ≠ WassersteinTypes.CLIP_WEIGHTS ∧
    ("none" : String) ≠ WassersteinTypes.GRADIENT_PENALTY ∧
    (initWasserstein cfgBothT =
      .ok { nCritic := 5, gradientPenaltyCoeff := none,
            driftTermCoeff := 0, constraint := some ⟨1/100⟩ } ∧
    initWasserstein cfgBothGpT =
      .ok { nCritic := 5, gradientPenaltyCoeff := some 10,
            driftTermCoeff := cfgBothGpT.driftTerm.getD 0,
            constraint := none } ∧
    initWasserstein cfgNeitherT =
      .ok { nCritic := 5, gradientPenaltyCoeff := none,
            driftTermCoeff := 0, constraint := none } ∧
    (∀ cfg : DictConfig,
      (∃ F, initWasserstein cfg = .ok F) ↔
      (cfg.nCritic ≠ none ∧ cfg.wassersteinType ≠ none ∧
        (cfg.wassersteinType = some WassersteinTypes.CLIP_WEIGHTS →
          cfg.clipValue ≠ none) ∧
        (cfg.wassersteinType = some WassersteinTypes.GRADIENT_PENALTY →
          cfg.gradientPenalty ≠ none)))) :=
  ⟨rfl, rfl, rfl, rfl, rfl, rfl, rfl, rfl, rfl, rfl, by decide, by decide,
    misconfig_silent_acceptance cfgBothT cfgBothGpT cfgNeitherT 5 5 5
      (1/100) (1/100) 10 10 "none" rfl rfl rfl rfl rfl rfl rfl rfl rfl rfl
      (by decide) (by decide)⟩
